import Mathlib

/-!
Shallow embedding of the pitipaw e-commerce backend (Go, several near-duplicate
revisions) and proofs about its HTTP handlers.

Conventions of the embedding:
* MongoDB collections are modelled as in-memory lists inside a `Db` state record;
  `InsertOne` appends and assigns the next identifier, `FindOne` with a username
  filter is `List.find?`, `CountDocuments` is `List.length`.
* Go `float64` prices are modelled as `Int`: no claim settled here depends on
  floating-point rounding.
* `bcrypt.GenerateFromPassword` / `bcrypt.CompareHashAndPassword` are modelled by
  the `PassVal` type below: a password field holds either a raw string (what the
  JSON decoder writes into it) or a salted one-way hash; comparison succeeds
  exactly on the hashed plaintext.
* Handlers are pure functions from the request plus the `Db` state to a
  response-and-state pair.  Fallible database calls are injected as `Except`
  parameters where a claim is about failure behaviour.
* Namespaces follow the revisions of the repository: `MainPure` is the
  hand-rolled `net/http` revision (`backend/main-pure.go`), `MainGin` is the
  gin + paseto + cloudinary revision (first unit of `backend/main.go`),
  `Part5` is the plain-gin revision (`unnamed/part_005`), and `Ctrl` is the
  modularized controllers revision (`config/env.go`,
  `backend/controllers/stats.controller.go`).
-/

namespace Back

/-- Value stored in a password field: either the raw string that the JSON
decoder produced, or a salted one-way bcrypt hash.  Distinguishing the two
constructors models the one-way property of bcrypt. -/
inductive PassVal
  | raw (s : String)
  | hashed (pw : String) (salt : Nat)
deriving DecidableEq

/-- Model of `bcrypt.GenerateFromPassword`: a salted one-way hash of `pw`. -/
def bcryptGenerate (pw : String) (salt : Nat) : PassVal :=
  .hashed pw salt

/-- Model of `bcrypt.CompareHashAndPassword`: succeeds exactly when the stored
value is a hash of the supplied plaintext (a raw stored string is not a valid
bcrypt hash, so comparison against it fails). -/
def bcryptCompare (stored : PassVal) (pw : String) : Bool :=
  match stored with
  | .hashed p _ => p == pw
  | .raw _ => false

/-- A JSON leaf value, for response objects whose exact field list matters. -/
inductive JVal
  | num (n : Int)
  | str (s : String)
deriving DecidableEq

/-- `true` iff the character list contains two consecutive dots, i.e. the
string contains the substring recognised by `strings.Contains(path, "..")`. -/
def hasDotDot : List Char → Bool
  | '.' :: '.' :: _ => true
  | _ :: rest => hasDotDot rest
  | [] => false

/-- Model of `strings.Contains(s, "..")`. -/
def containsDotDot (s : String) : Bool :=
  hasDotDot s.data

/-- Split a character list at every occurrence of `sep`. -/
def splitChars (sep : Char) : List Char → List (List Char)
  | [] => [[]]
  | c :: rest =>
    match splitChars sep rest with
    | h :: t => if c = sep then [] :: h :: t else (c :: h) :: t
    | [] => if c = sep then [[], []] else [[c]]

/-- Model of Go `strings.Split(s, sep)` for the one-character separators used
by this code (agrees with `String.splitOn` there, but reduces in the
kernel). -/
def goSplit (s : String) (sep : Char) : List String :=
  (splitChars sep s.data).map String.mk

/-- Model of `strings.ToLower`: ASCII case mapping, which agrees with the Go
function on every string compared against the extension allow-list here. -/
def goToLower (s : String) : String :=
  String.mk (s.data.map Char.toLower)

namespace MainPure

/-- `Product` of `backend/main-pure.go` (ObjectID modelled as `Nat`; field
defaults are the Go zero values the JSON decoder leaves in unbound fields). -/
structure Product where
  id : Nat := 0
  name : String := ""
  price : Int := 0
  description : String := ""
  imageURL : String := ""
deriving DecidableEq

/-- `Admin` of `backend/main-pure.go`. -/
structure Admin where
  id : Nat := 0
  username : String := ""
  password : PassVal := .raw ""
deriving DecidableEq

/-- `ProductInput` of `backend/main-pure.go`. -/
structure ProductInput where
  name : String := ""
  price : Int := 0
  description : String := ""
  imageURL : String := ""
deriving DecidableEq

/-- `AdminInput` of `backend/main-pure.go` (also the body of `/api/register`). -/
structure AdminInput where
  username : String := ""
  password : String := ""
deriving DecidableEq

/-- `LoginInput` of `backend/main-pure.go`. -/
structure LoginInput where
  username : String := ""
  password : String := ""
deriving DecidableEq

/-- The two MongoDB collections plus the next generated ObjectID. -/
structure Db where
  products : List Product := []
  admins : List Admin := []
  nextId : Nat := 1
deriving DecidableEq

/-- `MaxFileSize = 10 * 1024 * 1024` of `backend/main-pure.go`. -/
def maxFileSize : Nat := 10 * 1024 * 1024

/-- `UploadDir = "static/uploads"` of `backend/main-pure.go`. -/
def uploadDir : String := "static/uploads"

/-- `allowedExtensions` of `backend/main-pure.go`. -/
def allowedExtensions : List String := ["png", "jpg", "jpeg", "gif"]

/-- Outcome of `createProduct` in `backend/main-pure.go`. -/
inductive CreateProductOut
  | badRequest (msg : String)
  | internalError (msg : String)
  | created (p : Product)
deriving DecidableEq

/-- HTTP status of a `createProduct` outcome. -/
def CreateProductOut.statusCode : CreateProductOut → Nat
  | .badRequest _ => 400
  | .internalError _ => 500
  | .created _ => 201

/-- `createProduct` of `backend/main-pure.go` (lines 242-273): decode JSON,
reject empty name or non-positive price with 400, otherwise insert. -/
def createProduct (st : Db) (body : Option ProductInput) : CreateProductOut × Db :=
  match body with
  | none => (.badRequest ("Invalid JSON"), st)
  | some input =>
    if input.name = "" ∨ input.price ≤ 0 then
      (.badRequest ("Nama dan harga produk wajib diisi"), st)
    else
      let p : Product :=
        { id := st.nextId, name := input.name, price := input.price,
          description := input.description, imageURL := input.imageURL }
      (.created p, { st with products := st.products ++ [p], nextId := st.nextId + 1 })

/-- Outcome of `createAdmin` in `backend/main-pure.go`. -/
inductive CreateAdminOut
  | badRequest (msg : String)
  | internalError (msg : String)
  | created (id : Nat) (username : String)
deriving DecidableEq

/-- HTTP status of a `createAdmin` outcome. -/
def CreateAdminOut.statusCode : CreateAdminOut → Nat
  | .badRequest _ => 400
  | .internalError _ => 500
  | .created _ _ => 201

/-- `createAdmin` of `backend/main-pure.go` (lines 421-469), also the handler
behind `/api/register`: decode, require both fields, reject an existing
username with 400 `"Username sudah ada"`, otherwise hash and insert.  The
response carries only the id and username. -/
def createAdmin (st : Db) (body : Option AdminInput) (salt : Nat) : CreateAdminOut × Db :=
  match body with
  | none => (.badRequest ("Invalid JSON"), st)
  | some input =>
    if input.username = "" ∨ input.password = "" then
      (.badRequest ("Username dan password wajib diisi"), st)
    else
      match st.admins.find? (fun a => a.username == input.username) with
      | some _ => (.badRequest ("Username sudah ada"), st)
      | none =>
        let a : Admin :=
          { id := st.nextId, username := input.username,
            password := bcryptGenerate input.password salt }
        (.created a.id a.username,
         { st with admins := st.admins ++ [a], nextId := st.nextId + 1 })

/-- Number of stored admin documents carrying a given username. -/
def countUsername (st : Db) (u : String) : Nat :=
  (st.admins.filter (fun a => a.username == u)).length

/-- Outcome of `loginAdmin` in `backend/main-pure.go`; the success body carries
only a message and the username. -/
inductive LoginOut
  | badRequest (msg : String)
  | unauthorized (msg : String)
  | ok (respUsername : String)
deriving DecidableEq

/-- HTTP status of a `loginAdmin` outcome. -/
def LoginOut.statusCode : LoginOut → Nat
  | .badRequest _ => 400
  | .unauthorized _ => 401
  | .ok _ => 200

/-- `loginAdmin` of `backend/main-pure.go` (lines 537-571). -/
def loginAdmin (st : Db) (body : Option LoginInput) : LoginOut × Db :=
  match body with
  | none => (.badRequest ("Invalid JSON"), st)
  | some input =>
    if input.username = "" ∨ input.password = "" then
      (.badRequest ("Username dan password wajib diisi"), st)
    else
      match st.admins.find? (fun a => a.username == input.username) with
      | none => (.unauthorized ("Username/password salah"), st)
      | some admin =>
        if bcryptCompare admin.password input.password then
          (.ok admin.username, st)
        else
          (.unauthorized ("Username/password salah"), st)

/-- Outcome of `getProducts` in `backend/main-pure.go`. -/
inductive GetProductsOut
  | internalError (msg : String)
  | ok (ps : List Product)
deriving DecidableEq

/-- HTTP status of a `getProducts` outcome. -/
def GetProductsOut.statusCode : GetProductsOut → Nat
  | .internalError _ => 500
  | .ok _ => 200

/-- `getProducts` of `backend/main-pure.go` (lines 222-240), with the outcome
of the `Find` call injected: a driver error is surfaced as a 500 response. -/
def getProducts (findResult : Except String (List Product)) : GetProductsOut :=
  match findResult with
  | .error e => .internalError ("Error fetching products: " ++ e)
  | .ok ps => .ok ps

/-- A single multipart file as seen by the handler: client-supplied name and
its size in bytes. -/
structure UploadForm where
  filename : String := ""
  size : Nat := 0
deriving DecidableEq

/-- Outcome of the upload handlers.  Only `createdFile` represents a disk
write: it records the destination path passed to `os.Create` /
`SaveUploadedFile` and the relative URL returned to the client. -/
inductive UploadOut
  | badRequest (msg : String)
  | internalError (msg : String)
  | createdFile (destPath : String) (urlPath : String)
deriving DecidableEq

/-- HTTP status of an upload outcome. -/
def UploadOut.statusCode : UploadOut → Nat
  | .badRequest _ => 400
  | .internalError _ => 500
  | .createdFile _ _ => 201

/-- `uploadHandler` of `backend/main-pure.go` (lines 574-633).  `parseOk` is
the outcome of `r.ParseMultipartForm`, `form` is the outcome of
`r.FormFile("image")`.  Checks run in source order: parse, file presence, size,
extension (split on dots, at least two parts, lowercased last part in the
allow-list); only then is the file written to `uploadDir ++ "/" ++ filename`. -/
def uploadHandler (parseOk : Bool) (form : Option UploadForm) : UploadOut :=
  if ¬ parseOk then .badRequest ("File terlalu besar. Maksimal 10MB")
  else
    match form with
    | none => .badRequest ("No file part")
    | some f =>
      if maxFileSize < f.size then
        .badRequest ("File terlalu besar. Maksimal 10MB")
      else
        let parts := goSplit f.filename '.'
        if parts.length < 2 then .badRequest ("File not allowed")
        else
          let ext := goToLower (parts.getLastD (""))
          if allowedExtensions.contains ext then
            .createdFile (uploadDir ++ "/" ++ f.filename)
              ("/static/uploads/" ++ f.filename)
          else
            .badRequest ("File not allowed")

/-- `statsHandler` of `backend/main-pure.go` (lines 636-662), absent database
failure: the success body is exactly
`{"total_products": …, "total_admins": …, "status": "ok"}`. -/
def statsHandler (st : Db) : List (String × JVal) :=
  [(("total_products"), JVal.num st.products.length),
   (("total_admins"), JVal.num st.admins.length),
   (("status"), JVal.str ("ok"))]

/-- A sample stored admin whose password field holds the salted bcrypt hash
of the plaintext `"p"`. -/
def sampleAdmin : Admin :=
  { id := 1, username := "a", password := .hashed ("p") 0 }

/-- A sample database state holding exactly `sampleAdmin`. -/
def sampleDb : Db :=
  { admins := [sampleAdmin], nextId := 2 }

/-- A sample state with two products and one admin, for stats evaluation. -/
def sampleStatsDb : Db :=
  { products := [{ id := 1, name := "x", price := 5 },
                 { id := 2, name := "y", price := 7 }],
    admins := [sampleAdmin], nextId := 3 }

/-- Outcome of `staticHandler` in `backend/main-pure.go`.  Only `serveFile`
serves file content. -/
inductive StaticOut
  | badRequest (msg : String)
  | notFound (msg : String)
  | serveFile (path : String)
deriving DecidableEq

/-- `staticHandler` of `backend/main-pure.go` (lines 665-694): trim the
`/static/` prefix (`strings.TrimPrefix`), reject an empty remainder and any
path containing `".."`, then stat and serve `static/<path>` (`filepath.Join`
modelled as concatenation, which is adequate here because the served branch is
only reached by paths free of `".."`). -/
def staticHandler (urlPath : String) (existingFiles : List String) : StaticOut :=
  let path :=
    if ("/static/").data.isPrefixOf urlPath.data then
      String.mk (urlPath.data.drop (("/static/").data.length))
    else urlPath
  if path = "" then .badRequest ("File not found")
  else if containsDotDot path then .badRequest ("Invalid file path")
  else
    let fullPath := "static/" ++ path
    if existingFiles.contains fullPath then .serveFile fullPath
    else .notFound ("File not found")

end MainPure

namespace MainGin

/-- `Product` of the gin + paseto + cloudinary revision (`backend/main.go`):
ObjectID modelled as `Nat`, timestamps as `Nat`, binary image data as a byte
list, `imageBase64` carried by JSON only (`bson:"-"`). -/
structure Product where
  id : Nat := 0
  name : String := ""
  price : Int := 0
  description : String := ""
  category : String := ""
  image : String := ""
  imageURL : String := ""
  stock : Int := 0
  createdAt : Nat := 0
  updatedAt : Nat := 0
  imageData : List Nat := []
  imageBase64 : String := ""
deriving DecidableEq

/-- `Admin` of `backend/main.go`. -/
structure Admin where
  id : Nat := 0
  username : String := ""
  email : String := ""
  password : PassVal := .raw ""
  createdAt : Nat := 0
deriving DecidableEq

/-- Body of POST `/api/admins` as the JSON decoder binds it into `Admin`:
the password arrives as a plaintext string. -/
structure AdminBody where
  username : String := ""
  email : String := ""
  password : String := ""
deriving DecidableEq

/-- `RegisterRequest` of `backend/main.go` (all fields `binding:"required"`). -/
structure RegisterReq where
  username : String := ""
  email : String := ""
  password : String := ""
deriving DecidableEq

/-- `LoginRequest` of `backend/main.go` (both fields `binding:"required"`). -/
structure LoginReq where
  username : String := ""
  password : String := ""
deriving DecidableEq

/-- `Stats` of `backend/main.go`. -/
structure Stats where
  totalProducts : Int := 0
  totalAdmins : Int := 0
  totalValue : Int := 0
deriving DecidableEq

/-- The two collections plus the next generated ObjectID. -/
structure Db where
  products : List Product := []
  admins : List Admin := []
  nextId : Nat := 1
deriving DecidableEq

/-- `MAX_FILE_SIZE` default (`"10485760"`, 10 MiB) of `backend/main.go`. -/
def maxFileSize : Nat := 10485760

/-- `ObjectID.Hex()` modelled as the hexadecimal digits of the identifier. -/
def oidHex (n : Nat) : String :=
  String.mk (Nat.toDigits 16 n)

/-- Payload of the paseto token issued by `login`. -/
structure PasetoPayload where
  subject : String := ""
  issuedAt : Nat := 0
  expiration : Nat := 0
deriving DecidableEq

/-- Model of `paseto.NewV2().Encrypt(key, payload, footer)`: v2-local
authenticated encryption, modelled abstractly as the triple that determines the
ciphertext (the claims settled here concern what is encrypted, not the
cipher). -/
structure PasetoToken where
  key : List Nat
  payload : PasetoPayload
  footer : String
deriving DecidableEq

/-- The `paseto.NewV2().Encrypt` call. -/
def pasetoEncrypt (key : List Nat) (payload : PasetoPayload) (footer : String) : PasetoToken :=
  { key := key, payload := payload, footer := footer }

/-- Server configuration relevant to login: the paseto secret key bytes. -/
structure Cfg where
  pasetoSecretKey : List Nat := []
deriving DecidableEq

/-- The `init()` check of `backend/main.go`: `PASETO_SECRET_KEY` must be
exactly 32 bytes, otherwise the process aborts. -/
def initPasetoKey (key : List Nat) : Option Cfg :=
  if key.length = 32 then some { pasetoSecretKey := key } else none

/-- Outcome of `createProduct` in `backend/main.go`. -/
inductive CreateProductOut
  | badRequest (msg : String)
  | internalError (msg : String)
  | created (p : Product)
deriving DecidableEq

/-- HTTP status of a `createProduct` outcome. -/
def CreateProductOut.statusCode : CreateProductOut → Nat
  | .badRequest _ => 400
  | .internalError _ => 500
  | .created _ => 201

/-- `createProduct` of `backend/main.go` (lines 321-367).  The body binds into
`Product` (no `binding` tags, so any JSON is accepted); if an inline base64
image is present and Cloudinary is configured (`cld` is the outcome of that
upload, `none` when unconfigured) the image reference is replaced before
persistence; timestamps are set to now; `imageBase64`/`imageData` are cleared;
the document is inserted with no name or price validation. -/
def createProduct (st : Db) (body : Option Product)
    (cld : Option (Except Unit (String × String))) (now : Nat) :
    CreateProductOut × Db :=
  match body with
  | none => (.badRequest ("invalid body"), st)
  | some product =>
    match product.imageBase64 != "", cld with
    | true, some (.error _) =>
      (.internalError ("Gagal upload gambar ke Cloudinary"), st)
    | true, some (.ok (url, publicId)) =>
      let p : Product :=
        { product with
          imageURL := url, image := publicId,
          createdAt := now, updatedAt := now, imageBase64 := "", imageData := [],
          id := st.nextId }
      (.created p, { st with products := st.products ++ [p], nextId := st.nextId + 1 })
    | _, _ =>
      let p : Product :=
        { product with
          createdAt := now, updatedAt := now,
          imageBase64 := "", imageData := [], id := st.nextId }
      (.created p, { st with products := st.products ++ [p], nextId := st.nextId + 1 })

/-- Outcome of `createAdmin` in `backend/main.go`; the success body is the
admin with the password field cleared. -/
inductive CreateAdminOut
  | badRequest (msg : String)
  | internalError (msg : String)
  | created (respAdmin : Admin)
deriving DecidableEq

/-- HTTP status of a `createAdmin` outcome. -/
def CreateAdminOut.statusCode : CreateAdminOut → Nat
  | .badRequest _ => 400
  | .internalError _ => 500
  | .created _ => 201

/-- `createAdmin` of `backend/main.go` (lines 503-524): bind the JSON body into
`Admin` (the client password string lands in the password field unmodified),
set the creation time, insert, and return the admin with the password cleared.
There is no hashing and no duplicate-username check in this handler. -/
def createAdmin (st : Db) (body : Option AdminBody) (now : Nat) : CreateAdminOut × Db :=
  match body with
  | none => (.badRequest ("invalid body"), st)
  | some b =>
    let stored : Admin :=
      { id := st.nextId, username := b.username, email := b.email,
        password := .raw b.password, createdAt := now }
    (.created { stored with password := .raw "" },
     { st with admins := st.admins ++ [stored], nextId := st.nextId + 1 })

/-- Outcome of `register` in `backend/main.go`. -/
inductive RegisterOut
  | badRequest (msg : String)
  | conflict (msg : String)
  | internalError (msg : String)
  | created (respAdmin : Admin)
deriving DecidableEq

/-- HTTP status of a `register` outcome. -/
def RegisterOut.statusCode : RegisterOut → Nat
  | .badRequest _ => 400
  | .conflict _ => 409
  | .internalError _ => 500
  | .created _ => 201

/-- `register` of `backend/main.go` (lines 605-649): bind (all fields
required, so empty strings are rejected with 400), reject an existing username
with 409 Conflict, hash the password with bcrypt, insert, and return the admin
with the password cleared. -/
def register (st : Db) (body : Option RegisterReq) (salt now : Nat) : RegisterOut × Db :=
  match body with
  | none => (.badRequest ("invalid body"), st)
  | some req =>
    if req.username = "" ∨ req.email = "" ∨ req.password = "" then
      (.badRequest ("required field missing"), st)
    else
      match st.admins.find? (fun a => a.username == req.username) with
      | some _ => (.conflict ("Username already exists"), st)
      | none =>
        let stored : Admin :=
          { id := st.nextId, username := req.username, email := req.email,
            password := bcryptGenerate req.password salt, createdAt := now }
        (.created { stored with password := .raw "" },
         { st with admins := st.admins ++ [stored], nextId := st.nextId + 1 })

/-- Outcome of `login` in `backend/main.go`; the success body carries the
admin (password cleared) and the issued token. -/
inductive LoginOut
  | badRequest (msg : String)
  | unauthorized (msg : String)
  | internalError (msg : String)
  | ok (respAdmin : Admin) (token : PasetoToken)
deriving DecidableEq

/-- HTTP status of a `login` outcome. -/
def LoginOut.statusCode : LoginOut → Nat
  | .badRequest _ => 400
  | .unauthorized _ => 401
  | .internalError _ => 500
  | .ok _ _ => 200

/-- `login` of `backend/main.go` (lines 551-603): bind (both fields required),
look up the username (no document means 401), compare the password with bcrypt
(mismatch means 401), then issue a paseto v2-local token whose payload is
`{subject: admin id hex, issued-at: now, expiry: now + 24h}`, encrypted under
the configured secret and tagged with the footer string `"pitipaw-admin"`,
and return the admin with the password cleared.  Nothing is written. -/
def login (cfg : Cfg) (st : Db) (body : Option LoginReq) (now : Nat) : LoginOut × Db :=
  match body with
  | none => (.badRequest ("invalid body"), st)
  | some req =>
    if req.username = "" ∨ req.password = "" then
      (.badRequest ("required field missing"), st)
    else
      match st.admins.find? (fun a => a.username == req.username) with
      | none => (.unauthorized ("Invalid credentials"), st)
      | some admin =>
        if bcryptCompare admin.password req.password then
          let payload : PasetoPayload :=
            { subject := oidHex admin.id, issuedAt := now,
              expiration := now + 24 * 60 * 60 }
          let token := pasetoEncrypt cfg.pasetoSecretKey payload ("pitipaw-admin")
          (.ok { admin with password := .raw "" } token, st)
        else
          (.unauthorized ("Invalid credentials"), st)

/-- Number of stored admin documents carrying a given username. -/
def countUsername (st : Db) (u : String) : Nat :=
  (st.admins.filter (fun a => a.username == u)).length

/-- `getAdmins` of `backend/main.go` (lines 478-501), absent database failure:
fetch all admins and clear every password before responding. -/
def getAdmins (st : Db) : List Admin :=
  st.admins.map (fun a => { a with password := .raw "" })

/-- Outcome of `uploadFile` in `backend/main.go`; the success body carries the
inserted document id and the original filename, with status 200. -/
inductive UploadFileOut
  | badRequest (msg : String)
  | internalError (msg : String)
  | okSaved (id : Nat) (filename : String)
deriving DecidableEq

/-- HTTP status of an `uploadFile` outcome. -/
def UploadFileOut.statusCode : UploadFileOut → Nat
  | .badRequest _ => 400
  | .internalError _ => 500
  | .okSaved _ _ => 200

/-- A multipart file for `uploadFile`: name, size, content bytes. -/
structure UploadedFile where
  filename : String := ""
  size : Nat := 0
  content : List Nat := []
deriving DecidableEq

/-- `uploadFile` of `backend/main.go` (lines 651-696): require a file, reject
only on size greater than `maxFileSize`, then read the bytes and insert a new
document into the products collection holding the filename and the raw bytes.
There is no extension check and nothing restricts the filename. -/
def uploadFile (st : Db) (file : Option UploadedFile) (now : Nat) : UploadFileOut × Db :=
  match file with
  | none => (.badRequest ("No file uploaded"), st)
  | some f =>
    if maxFileSize < f.size then
      (.badRequest ("File too large"), st)
    else
      let p : Product :=
        { id := st.nextId, name := f.filename, image := f.filename,
          imageData := f.content, createdAt := now, updatedAt := now }
      (.okSaved st.nextId f.filename,
       { st with products := st.products ++ [p], nextId := st.nextId + 1 })

/-- The `$group`/`$multiply` aggregation of `getStats`: over a non-empty
products collection it yields exactly one document holding the sum of
`price * stock`; over an empty collection it yields no document. -/
def aggregateTotal (ps : List Product) : List Int :=
  if ps.isEmpty then [] else [(ps.map (fun p => p.price * p.stock)).sum]

/-- The three database calls `getStats` issues, each fallible. -/
structure StatsCalls where
  countProducts : Except Unit Int
  countAdmins : Except Unit Int
  aggregate : Except Unit (List Int)

/-- Outcome of `getStats` in `backend/main.go`. -/
inductive StatsOut
  | internalError (msg : String)
  | ok (stats : Stats)
deriving DecidableEq

/-- HTTP status of a `getStats` outcome. -/
def StatsOut.statusCode : StatsOut → Nat
  | .internalError _ => 500
  | .ok _ => 200

/-- `getStats` of `backend/main.go` (lines 723-771) over the outcomes of its
three database calls: a failed `CountDocuments` is silently replaced by 0
(`if err != nil { … = 0 }`), a failed `Aggregate` is surfaced as a 500
response, and the total value is the `total` field of the first aggregate
document (0 when there is none). -/
def getStatsCalls (calls : StatsCalls) : StatsOut :=
  let totalProducts := match calls.countProducts with
    | .ok n => n
    | .error _ => 0
  let totalAdmins := match calls.countAdmins with
    | .ok n => n
    | .error _ => 0
  match calls.aggregate with
  | .error _ => .internalError ("aggregate error")
  | .ok docs =>
    let totalValue := match docs with
      | [] => 0
      | v :: _ => v
    .ok { totalProducts := totalProducts, totalAdmins := totalAdmins,
          totalValue := totalValue }

/-- `getStats` of `backend/main.go` when all three database calls succeed. -/
def getStats (st : Db) : StatsOut :=
  getStatsCalls
    { countProducts := .ok st.products.length,
      countAdmins := .ok st.admins.length,
      aggregate := .ok (aggregateTotal st.products) }

/-- A sample stored admin whose password field holds the salted bcrypt hash
of the plaintext `"p"`. -/
def sampleAdmin : Admin :=
  { id := 1, username := "a", email := "e", password := .hashed ("p") 0,
    createdAt := 0 }

/-- A sample database state holding exactly `sampleAdmin`. -/
def sampleDb : Db :=
  { admins := [sampleAdmin], nextId := 2 }

/-- A sample 32-byte paseto secret. -/
def sampleKey : List Nat :=
  List.replicate 32 7

end MainGin

namespace Part5

/-- The plain-gin revision (`unnamed/part_005`) reuses the exact struct shapes
of `backend/main-pure.go`; its `ProductInput`, `AdminInput` and `LoginInput`
additionally carry `binding:"required"` tags, modelled inside the handlers. -/
abbrev Product := MainPure.Product

/-- Database state of the plain-gin revision. -/
abbrev Db := MainPure.Db

/-- `ProductInput` of `unnamed/part_005`: `Name` and `Price` are
`binding:"required"`. -/
abbrev ProductInput := MainPure.ProductInput

/-- Outcome of `createProduct` in `unnamed/part_005`. -/
abbrev CreateProductOut := MainPure.CreateProductOut

/-- `createProduct` of `unnamed/part_005` (lines 246-271): `ShouldBindJSON`
with `binding:"required"` on `Name` and `Price` rejects a missing body, an
empty name, or a zero price (`required` fails exactly on Go zero values, so a
negative price passes); the product is then inserted with no further
validation. -/
def createProduct (st : Db) (body : Option ProductInput) : CreateProductOut × Db :=
  match body with
  | none => (.badRequest ("Nama dan harga produk wajib diisi"), st)
  | some input =>
    if input.name = "" ∨ input.price = 0 then
      (.badRequest ("Nama dan harga produk wajib diisi"), st)
    else
      let p : Product :=
        { id := st.nextId, name := input.name, price := input.price,
          description := input.description, imageURL := input.imageURL }
      (.created p, { st with products := st.products ++ [p], nextId := st.nextId + 1 })

/-- Multipart file and upload outcome shapes shared with `MainPure`. -/
abbrev UploadForm := MainPure.UploadForm

/-- Outcome type of `uploadImage` (same shape as `MainPure.UploadOut`). -/
abbrev UploadOut := MainPure.UploadOut

/-- `uploadImage` of `unnamed/part_005` (lines 505-546): require the `image`
form file, reject on size above 10 MiB, reject a filename without an extension
or with a lowercased extension outside {png, jpg, jpeg, gif}, then save to
`static/uploads/<original filename>` and answer 201 with the relative URL. -/
def uploadImage (file : Option UploadForm) : UploadOut :=
  match file with
  | none => .badRequest ("No file part")
  | some f =>
    if MainPure.maxFileSize < f.size then
      .badRequest ("File terlalu besar. Maksimal 10MB")
    else
      let parts := goSplit f.filename '.'
      if parts.length < 2 then .badRequest ("File not allowed")
      else
        let ext := goToLower (parts.getLastD (""))
        if MainPure.allowedExtensions.contains ext then
          .createdFile (MainPure.uploadDir ++ "/" ++ f.filename)
            ("/static/uploads/" ++ f.filename)
        else
          .badRequest ("File not allowed")

end Part5

namespace Ctrl

/-- The modularized revision's `models.Admin` has the same fields as
`MainGin.Admin`. -/
abbrev Admin := MainGin.Admin

/-- `models.Product` of the modularized revision: same fields as
`MainGin.Product` except that it lacks `image_data`, which none of the
modelled controller handlers touch. -/
abbrev Product := MainGin.Product

/-- Database state of the modularized revision. -/
abbrev Db := MainGin.Db

/-- Body of POST `/api/admins` as bound into `models.Admin` (no `binding`
tags): the password arrives as a plaintext string. -/
abbrev AdminBody := MainGin.AdminBody

/-- Outcome type of `Controller.CreateAdmin` (same shape as
`MainGin.CreateAdminOut`). -/
abbrev CreateAdminOut := MainGin.CreateAdminOut

/-- `Controller.CreateAdmin` of `config/env.go` (third unit, lines 244-269):
bind the JSON body, hash whatever password string it carries with bcrypt,
set the creation time, insert, and return the admin with the password
cleared. -/
def CreateAdmin (st : Db) (body : Option AdminBody) (salt now : Nat) : CreateAdminOut × Db :=
  match body with
  | none => (.badRequest ("invalid body"), st)
  | some b =>
    let stored : Admin :=
      { id := st.nextId, username := b.username, email := b.email,
        password := bcryptGenerate b.password salt, createdAt := now }
    (.created { stored with password := .raw "" },
     { st with admins := st.admins ++ [stored], nextId := st.nextId + 1 })

/-- Stats response shape of the modularized revision. -/
abbrev Stats := MainGin.Stats

/-- The database calls of `Controller.GetStats`, each fallible. -/
abbrev StatsCalls := MainGin.StatsCalls

/-- Outcome type of `Controller.GetStats`. -/
abbrev StatsOut := MainGin.StatsOut

/-- `Controller.GetStats` of `backend/controllers/stats.controller.go`
(lines 32-71) over the outcomes of its database calls.  The two
`CountDocuments` errors are discarded (`totalProducts, _ := …`), leaving the
zero value.  The aggregate error is surfaced as a 500 response.  On success
the code first calls `cursor.Next`, which consumes the first aggregate
document, and then `cursor.All`, which decodes only the documents after the
current one — so with the single `$group` result the decoded list is empty
and `totalValue` keeps its zero value. -/
def GetStatsCalls (calls : StatsCalls) : StatsOut :=
  let totalProducts := match calls.countProducts with
    | .ok n => n
    | .error _ => 0
  let totalAdmins := match calls.countAdmins with
    | .ok n => n
    | .error _ => 0
  match calls.aggregate with
  | .error _ => .internalError ("aggregate error")
  | .ok docs =>
    let totalValue : Int := match docs with
      | [] => 0
      | _ :: rest =>
        match rest with
        | [] => 0
        | v :: _ => v
    .ok { totalProducts := totalProducts, totalAdmins := totalAdmins,
          totalValue := totalValue }

/-- `Controller.GetStats` when all database calls succeed. -/
def GetStats (st : Db) : StatsOut :=
  GetStatsCalls
    { countProducts := .ok st.products.length,
      countAdmins := .ok st.admins.length,
      aggregate := .ok (MainGin.aggregateTotal st.products) }

end Ctrl

/-! ### Helper lemmas -/

/-- Appending to a list in which `find?` fails continues the search in the
second list. -/
theorem find?_append_of_none {α : Type} (p : α → Bool) {l₁ : List α} (l₂ : List α)
    (h : l₁.find? p = none) : (l₁ ++ l₂).find? p = l₂.find? p := by
  rw [List.find?_append, h]
  rfl

/-- A list in which `find?` fails has an empty filtration. -/
theorem filter_eq_nil_of_find?_none {α : Type} (p : α → Bool) {l : List α}
    (h : l.find? p = none) : l.filter p = [] := by
  rw [List.filter_eq_nil_iff]
  intro a ha
  have hfa := List.find?_eq_none.mp h a ha
  simpa using hfa

/-! ### C1: product-creation validation -/

/-- C1 (amended): product-creation validation is revision-dependent.  The
`main-pure.go` handler rejects an empty name or a non-positive price with
BadRequest and inserts nothing; the `part_005` handler rejects an empty name
or a zero price (via `binding:"required"`) with BadRequest and inserts
nothing, but a negative price passes its binding; the `main.go` handler
performs no name or price validation at all and always inserts the document
(here with Cloudinary unconfigured). -/
theorem C1_create_product_validation :
    (∀ (st : MainPure.Db) (input : MainPure.ProductInput),
      input.name = "" ∨ input.price ≤ 0 →
      MainPure.createProduct st (some input) =
        (.badRequest ("Nama dan harga produk wajib diisi"), st)) ∧
    (∀ (st : Part5.Db) (input : Part5.ProductInput),
      input.name = "" ∨ input.price = 0 →
      Part5.createProduct st (some input) =
        (.badRequest ("Nama dan harga produk wajib diisi"), st)) ∧
    (∀ (st : MainGin.Db) (body : MainGin.Product) (now : Nat),
      ∃ p : MainGin.Product,
        MainGin.createProduct st (some body) none now =
          (.created p,
           { st with products := st.products ++ [p], nextId := st.nextId + 1 })) := by
  refine ⟨?_, ?_, ?_⟩
  · intro st input h
    simp [MainPure.createProduct, h]
  · intro st input h
    simp [Part5.createProduct, h]
  · intro st body now
    refine ⟨{ body with
              createdAt := now, updatedAt := now,
              imageBase64 := "", imageData := [], id := st.nextId }, ?_⟩
    cases hb : body.imageBase64 != "" <;> simp [MainGin.createProduct, hb]

/-- C1 witness: the amended theorem applied at concrete inputs. -/
theorem C1_create_product_validation_witness :
    MainPure.createProduct { } (some { name := "", price := 5 }) =
      (.badRequest ("Nama dan harga produk wajib diisi"), { }) ∧
    Part5.createProduct { } (some { name := "x", price := 0 }) =
      (.badRequest ("Nama dan harga produk wajib diisi"), { }) ∧
    (∃ p : MainGin.Product,
      MainGin.createProduct { } (some { name := "" }) none 7 =
        (.created p, { products := [p], admins := [], nextId := 2 })) :=
  ⟨C1_create_product_validation.1 { } { name := "", price := 5 } (Or.inl rfl),
   C1_create_product_validation.2.1 { } { name := "x", price := 0 } (Or.inr rfl),
   C1_create_product_validation.2.2 { } { name := "" } 7⟩

/-- C2 (amended): for a pair of registration calls with the same username
(all fields non-empty, username initially absent), exactly one admin document
is stored and the second call is rejected without inserting — with status 409
Conflict in `main.go`'s `register`, but with status 400 BadRequest
(`"Username sudah ada"`) in `main-pure.go`'s `createAdmin`, the handler behind
its `/api/register`. -/
theorem C2_duplicate_registration :
    (∀ (st : MainGin.Db) (req : MainGin.RegisterReq) (salt now salt2 now2 : Nat),
      req.username ≠ "" → req.email ≠ "" → req.password ≠ "" →
      st.admins.find? (fun a => a.username == req.username) = none →
      (MainGin.register st (some req) salt now).1.statusCode = 201 ∧
      MainGin.countUsername (MainGin.register st (some req) salt now).2 req.username = 1 ∧
      MainGin.register (MainGin.register st (some req) salt now).2 (some req) salt2 now2 =
        (.conflict ("Username already exists"),
         (MainGin.register st (some req) salt now).2) ∧
      (MainGin.RegisterOut.conflict ("Username already exists")).statusCode = 409) ∧
    (∀ (st : MainPure.Db) (inp : MainPure.AdminInput) (salt salt2 : Nat),
      inp.username ≠ "" → inp.password ≠ "" →
      st.admins.find? (fun a => a.username == inp.username) = none →
      (MainPure.createAdmin st (some inp) salt).1.statusCode = 201 ∧
      MainPure.countUsername (MainPure.createAdmin st (some inp) salt).2 inp.username = 1 ∧
      MainPure.createAdmin (MainPure.createAdmin st (some inp) salt).2 (some inp) salt2 =
        (.badRequest ("Username sudah ada"),
         (MainPure.createAdmin st (some inp) salt).2)) := by
  constructor
  · intro st req salt now salt2 now2 hu he hp hfind
    have hreg :
        MainGin.register st (some req) salt now =
          (MainGin.RegisterOut.created
             { id := st.nextId, username := req.username, email := req.email,
               password := .raw "", createdAt := now },
           { st with
             admins := st.admins ++
               [{ id := st.nextId, username := req.username, email := req.email,
                  password := bcryptGenerate req.password salt, createdAt := now }],
             nextId := st.nextId + 1 }) := by
      simp [MainGin.register, hu, he, hp, hfind]
    rw [hreg]
    refine ⟨rfl, ?_, ?_, rfl⟩
    · unfold MainGin.countUsername
      rw [List.filter_append, filter_eq_nil_of_find?_none _ hfind]
      simp
    · simp [MainGin.register, hu, he, hp, hfind]
  · intro st inp salt salt2 hu hp hfind
    have hreg :
        MainPure.createAdmin st (some inp) salt =
          (MainPure.CreateAdminOut.created st.nextId inp.username,
           { st with
             admins := st.admins ++
               [{ id := st.nextId, username := inp.username,
                  password := bcryptGenerate inp.password salt }],
             nextId := st.nextId + 1 }) := by
      simp [MainPure.createAdmin, hu, hp, hfind]
    rw [hreg]
    refine ⟨rfl, ?_, ?_⟩
    · unfold MainPure.countUsername
      rw [List.filter_append, filter_eq_nil_of_find?_none _ hfind]
      simp
    · simp [MainPure.createAdmin, hu, hp, hfind]

/-- C2 witness: the amended theorem applied at a concrete pair of registration
calls in each revision. -/
theorem C2_duplicate_registration_witness :
    ((MainGin.register { } (some { username := "u", email := "e", password := "p" }) 0 2).1.statusCode = 201 ∧
     MainGin.countUsername
       (MainGin.register { } (some { username := "u", email := "e", password := "p" }) 0 2).2 ("u") = 1 ∧
     MainGin.register
       (MainGin.register { } (some { username := "u", email := "e", password := "p" }) 0 2).2
       (some { username := "u", email := "e", password := "p" }) 1 3 =
       (.conflict ("Username already exists"),
        (MainGin.register { } (some { username := "u", email := "e", password := "p" }) 0 2).2) ∧
     (MainGin.RegisterOut.conflict ("Username already exists")).statusCode = 409) ∧
    ((MainPure.createAdmin { } (some { username := "u", password := "p" }) 0).1.statusCode = 201 ∧
     MainPure.countUsername
       (MainPure.createAdmin { } (some { username := "u", password := "p" }) 0).2 ("u") = 1 ∧
     MainPure.createAdmin
       (MainPure.createAdmin { } (some { username := "u", password := "p" }) 0).2
       (some { username := "u", password := "p" }) 1 =
       (.badRequest ("Username sudah ada"),
        (MainPure.createAdmin { } (some { username := "u", password := "p" }) 0).2)) :=
  ⟨C2_duplicate_registration.1 { } { username := "u", email := "e", password := "p" } 0 2 1 3
     (by decide) (by decide) (by decide) rfl,
   C2_duplicate_registration.2 { } { username := "u", password := "p" } 0 1
     (by decide) (by decide) rfl⟩

/-- C2 counterexample: in `main-pure.go` the second registration call with the
same username answers 400 BadRequest, where the claim demands 409 Conflict. -/
theorem C2_counterexample :
    (MainPure.createAdmin
        (MainPure.createAdmin { } (some { username := "u", password := "p" }) 0).2
        (some { username := "u", password := "p" }) 1).1 =
      .badRequest ("Username sudah ada") ∧
    (MainPure.createAdmin
        (MainPure.createAdmin { } (some { username := "u", password := "p" }) 0).2
        (some { username := "u", password := "p" }) 1).1.statusCode = 400 := by
  exact ⟨rfl, rfl⟩

/-- C3 (amended): admin-creation handlers differ on hashing.
`Controller.CreateAdmin` (modularized revision) persists a salted bcrypt hash
of the payload password and returns the admin with the password cleared;
`main.go`'s `createAdmin` persists the payload password string unmodified (no
hashing) while still clearing it in the response; and every admin read
response has the password field stripped. -/
theorem C3_admin_password_storage :
    (∀ (st : Ctrl.Db) (b : Ctrl.AdminBody) (salt now : Nat),
      ∃ stored : Ctrl.Admin,
        Ctrl.CreateAdmin st (some b) salt now =
          (.created { stored with password := .raw "" },
           { st with admins := st.admins ++ [stored], nextId := st.nextId + 1 }) ∧
        stored.password = bcryptGenerate b.password salt) ∧
    (∀ (st : MainGin.Db) (b : MainGin.AdminBody) (now : Nat),
      ∃ stored : MainGin.Admin,
        MainGin.createAdmin st (some b) now =
          (.created { stored with password := .raw "" },
           { st with admins := st.admins ++ [stored], nextId := st.nextId + 1 }) ∧
        stored.password = .raw b.password) ∧
    (∀ (st : MainGin.Db) (a : MainGin.Admin),
      a ∈ MainGin.getAdmins st → a.password = .raw "") := by
  refine ⟨?_, ?_, ?_⟩
  · intro st b salt now
    exact ⟨{ id := st.nextId, username := b.username, email := b.email,
             password := bcryptGenerate b.password salt, createdAt := now },
           rfl, rfl⟩
  · intro st b now
    exact ⟨{ id := st.nextId, username := b.username, email := b.email,
             password := .raw b.password, createdAt := now },
           rfl, rfl⟩
  · intro st a ha
    obtain ⟨x, -, rfl⟩ := List.mem_map.mp ha
    rfl

/-- C3 witness: the amended theorem applied at concrete inputs. -/
theorem C3_admin_password_storage_witness :
    (∃ stored : Ctrl.Admin,
      Ctrl.CreateAdmin { } (some { username := "u", email := "e", password := "pw" }) 3 4 =
        (.created { stored with password := .raw "" },
         { products := [], admins := [stored], nextId := 2 }) ∧
      stored.password = bcryptGenerate ("pw") 3) ∧
    (∃ stored : MainGin.Admin,
      MainGin.createAdmin { } (some { username := "u", email := "e", password := "pw" }) 4 =
        (.created { stored with password := .raw "" },
         { products := [], admins := [stored], nextId := 2 }) ∧
      stored.password = .raw ("pw")) ∧
    ({ id := 1, username := "a", email := "e", password := .raw "",
       createdAt := 0 } : MainGin.Admin).password = .raw "" :=
  ⟨C3_admin_password_storage.1 { } { username := "u", email := "e", password := "pw" } 3 4,
   C3_admin_password_storage.2.1 { } { username := "u", email := "e", password := "pw" } 4,
   C3_admin_password_storage.2.2
     { admins := [{ id := 1, username := "a", email := "e",
                    password := .hashed ("p") 0, createdAt := 0 }], nextId := 2 }
     { id := 1, username := "a", email := "e", password := .raw "", createdAt := 0 }
     (by decide)⟩

/-- C3 counterexample: `main.go`'s createAdmin persists the password exactly
as the raw plaintext string of the payload, not as a salted one-way hash. -/
theorem C3_counterexample :
    ((MainGin.createAdmin { } (some { username := "u", email := "e", password := "secret" }) 0).2.admins.map
        (fun a => a.password)) = [PassVal.raw ("secret")] := by
  rfl

/-- C4 (amended): login requests whose username or password field is empty
are rejected with 400 BadRequest by input validation before any credential
check; for any stored admin with a bcrypt-hashed non-empty password and any
well-formed request, login with the correct password succeeds with the
password field of the response cleared (equal neither to the plaintext nor to
the stored hash) and the collection unchanged, and login with a wrong
password or an absent username answers 401 Unauthorized with the collection
unchanged.  Shown for `main.go`'s `login` and `main-pure.go`'s
`loginAdmin`. -/
theorem C4_login_behaviour :
    (∀ (cfg : MainGin.Cfg) (st : MainGin.Db) (req : MainGin.LoginReq) (now : Nat)
       (admin : MainGin.Admin) (pw : String) (salt : Nat),
      req.username ≠ "" → req.password ≠ "" →
      st.admins.find? (fun a => a.username == req.username) = some admin →
      admin.password = .hashed pw salt →
      ((pw = req.password →
        ∃ t, MainGin.login cfg st (some req) now =
               (.ok { admin with password := .raw "" } t, st) ∧
          (MainGin.LoginOut.ok { admin with password := .raw "" } t).statusCode = 200 ∧
          ({ admin with password := .raw "" } : MainGin.Admin).password ≠ .raw pw ∧
          ({ admin with password := .raw "" } : MainGin.Admin).password ≠ admin.password) ∧
       (pw ≠ req.password →
        MainGin.login cfg st (some req) now =
          (.unauthorized ("Invalid credentials"), st) ∧
        (MainGin.LoginOut.unauthorized ("Invalid credentials")).statusCode = 401))) ∧
    (∀ (cfg : MainGin.Cfg) (st : MainGin.Db) (req : MainGin.LoginReq) (now : Nat),
      req.username ≠ "" → req.password ≠ "" →
      st.admins.find? (fun a => a.username == req.username) = none →
      MainGin.login cfg st (some req) now =
        (.unauthorized ("Invalid credentials"), st)) ∧
    (∀ (st : MainPure.Db) (inp : MainPure.LoginInput)
       (admin : MainPure.Admin) (pw : String) (salt : Nat),
      inp.username ≠ "" → inp.password ≠ "" →
      st.admins.find? (fun a => a.username == inp.username) = some admin →
      admin.password = .hashed pw salt →
      ((pw = inp.password →
        MainPure.loginAdmin st (some inp) = (.ok admin.username, st)) ∧
       (pw ≠ inp.password →
        MainPure.loginAdmin st (some inp) =
          (.unauthorized ("Username/password salah"), st)))) ∧
    (∀ (st : MainPure.Db) (inp : MainPure.LoginInput),
      inp.username ≠ "" → inp.password ≠ "" →
      st.admins.find? (fun a => a.username == inp.username) = none →
      MainPure.loginAdmin st (some inp) =
        (.unauthorized ("Username/password salah"), st)) := by
  refine ⟨?_, ?_, ?_, ?_⟩
  · intro cfg st req now admin pw salt hu hp hfind hpass
    constructor
    · intro hmatch
      refine ⟨MainGin.pasetoEncrypt cfg.pasetoSecretKey
                { subject := MainGin.oidHex admin.id, issuedAt := now,
                  expiration := now + 24 * 60 * 60 } ("pitipaw-admin"),
              ?_, rfl, ?_, ?_⟩
      · simp [MainGin.login, hu, hp, hfind, bcryptCompare, hpass, hmatch]
      · intro h
        rw [show ({ admin with password := .raw "" } : MainGin.Admin).password = .raw "" from rfl] at h
        injection h with h1
        exact hp (hmatch ▸ h1.symm ▸ rfl)
      · intro h
        rw [show ({ admin with password := .raw "" } : MainGin.Admin).password = .raw "" from rfl, hpass] at h
        cases h
    · intro hne
      refine ⟨?_, rfl⟩
      simp [MainGin.login, hu, hp, hfind, bcryptCompare, hpass, hne]
  · intro cfg st req now hu hp hfind
    simp [MainGin.login, hu, hp, hfind]
  · intro st inp admin pw salt hu hp hfind hpass
    constructor
    · intro hmatch
      simp [MainPure.loginAdmin, hu, hp, hfind, bcryptCompare, hpass, hmatch]
    · intro hne
      simp [MainPure.loginAdmin, hu, hp, hfind, bcryptCompare, hpass, hne]
  · intro st inp hu hp hfind
    simp [MainPure.loginAdmin, hu, hp, hfind]

/-- C4 witness: the amended theorem applied at a concrete stored admin for
each of correct-password, wrong-password and unknown-username requests, in
both revisions. -/
theorem C4_login_behaviour_witness :
    (∃ t, MainGin.login { } MainGin.sampleDb (some { username := "a", password := "p" }) 5 =
        (.ok { MainGin.sampleAdmin with password := .raw "" } t, MainGin.sampleDb) ∧
      (MainGin.LoginOut.ok { MainGin.sampleAdmin with password := .raw "" } t).statusCode = 200 ∧
      ({ MainGin.sampleAdmin with password := .raw "" } : MainGin.Admin).password ≠ .raw ("p") ∧
      ({ MainGin.sampleAdmin with password := .raw "" } : MainGin.Admin).password ≠
        MainGin.sampleAdmin.password) ∧
    (MainGin.login { } MainGin.sampleDb (some { username := "a", password := "q" }) 5 =
        (.unauthorized ("Invalid credentials"), MainGin.sampleDb) ∧
      (MainGin.LoginOut.unauthorized ("Invalid credentials")).statusCode = 401) ∧
    MainGin.login { } MainGin.sampleDb (some { username := "z", password := "p" }) 5 =
      (.unauthorized ("Invalid credentials"), MainGin.sampleDb) ∧
    MainPure.loginAdmin MainPure.sampleDb (some { username := "a", password := "p" }) =
      (.ok MainPure.sampleAdmin.username, MainPure.sampleDb) ∧
    MainPure.loginAdmin MainPure.sampleDb (some { username := "a", password := "q" }) =
      (.unauthorized ("Username/password salah"), MainPure.sampleDb) :=
  ⟨(C4_login_behaviour.1 { } MainGin.sampleDb { username := "a", password := "p" } 5
      MainGin.sampleAdmin ("p") 0 (by decide) (by decide) (by decide) rfl).1 rfl,
   (C4_login_behaviour.1 { } MainGin.sampleDb { username := "a", password := "q" } 5
      MainGin.sampleAdmin ("p") 0 (by decide) (by decide) (by decide) rfl).2 (by decide),
   C4_login_behaviour.2.1 { } MainGin.sampleDb { username := "z", password := "p" } 5
     (by decide) (by decide) (by decide),
   (C4_login_behaviour.2.2.1 MainPure.sampleDb { username := "a", password := "p" }
      MainPure.sampleAdmin ("p") 0 (by decide) (by decide) (by decide) rfl).1 rfl,
   (C4_login_behaviour.2.2.1 MainPure.sampleDb { username := "a", password := "q" }
      MainPure.sampleAdmin ("p") 0 (by decide) (by decide) (by decide) rfl).2 (by decide)⟩

/-- C4 counterexample: a login request whose username is the empty string — a
username that no stored admin has — is answered 400 BadRequest by the
`binding:"required"` validation, where the claim demands 401 Unauthorized for
every unknown username. -/
theorem C4_counterexample :
    MainGin.sampleDb.admins.find? (fun a => a.username == ("")) = none ∧
    (MainGin.login { } MainGin.sampleDb (some { username := "", password := "x" }) 0).1.statusCode = 400 := by
  exact ⟨rfl, rfl⟩

/-- C5 (amended): on a successful login in the token-issuing revision
(`main.go`), the issued token's payload has subject equal to the admin's
identifier (hex), issued-at equal to the login time, expiration exactly 24
hours later, and the token is authenticated-encrypted (paseto v2-local) under
the configured 32-byte server secret — but the fixed context string it is
tagged with is `"pitipaw-admin"` (held in a variable named `footer`), not the
literal string `"footer"`. -/
theorem C5_token_contents :
    ∀ (key : List Nat) (cfg : MainGin.Cfg) (st : MainGin.Db) (req : MainGin.LoginReq)
      (now : Nat) (admin : MainGin.Admin) (pw : String) (salt : Nat),
      MainGin.initPasetoKey key = some cfg →
      req.username ≠ "" → req.password ≠ "" →
      st.admins.find? (fun a => a.username == req.username) = some admin →
      admin.password = .hashed pw salt →
      pw = req.password →
      ∃ respAdmin t,
        MainGin.login cfg st (some req) now = (.ok respAdmin t, st) ∧
        t.payload.subject = MainGin.oidHex admin.id ∧
        t.payload.issuedAt = now ∧
        t.payload.expiration = now + 24 * 60 * 60 ∧
        t.footer = "pitipaw-admin" ∧
        t.key = key ∧
        key.length = 32 := by
  intro key cfg st req now admin pw salt hinit hu hp hfind hpass hmatch
  have hkey : key.length = 32 ∧ cfg.pasetoSecretKey = key := by
    by_cases hk : key.length = 32
    · refine ⟨hk, ?_⟩
      simp [MainGin.initPasetoKey, hk] at hinit
      rw [← hinit]
    · simp [MainGin.initPasetoKey, hk] at hinit
  obtain ⟨hklen, hckey⟩ := hkey
  refine ⟨{ admin with password := .raw "" },
          MainGin.pasetoEncrypt cfg.pasetoSecretKey
            { subject := MainGin.oidHex admin.id, issuedAt := now,
              expiration := now + 24 * 60 * 60 } ("pitipaw-admin"),
          ?_, rfl, rfl, rfl, rfl, hckey, hklen⟩
  simp [MainGin.login, hu, hp, hfind, bcryptCompare, hpass, hmatch]

/-- C5 witness: the amended theorem applied at a concrete key, admin and
login request. -/
theorem C5_token_contents_witness :
    ∃ respAdmin t,
      MainGin.login { pasetoSecretKey := MainGin.sampleKey } MainGin.sampleDb
          (some { username := "a", password := "p" }) 5 =
        (.ok respAdmin t, MainGin.sampleDb) ∧
      t.payload.subject = MainGin.oidHex MainGin.sampleAdmin.id ∧
      t.payload.issuedAt = 5 ∧
      t.payload.expiration = 5 + 24 * 60 * 60 ∧
      t.footer = "pitipaw-admin" ∧
      t.key = MainGin.sampleKey ∧
      MainGin.sampleKey.length = 32 :=
  C5_token_contents MainGin.sampleKey { pasetoSecretKey := MainGin.sampleKey }
    MainGin.sampleDb { username := "a", password := "p" } 5 MainGin.sampleAdmin ("p") 0
    (by decide) (by decide) (by decide) (by decide) rfl rfl

/-- C5 counterexample: the context string of a concretely issued token is
`"pitipaw-admin"`, not `"footer"` as the claim states. -/
theorem C5_counterexample :
    (match (MainGin.login { pasetoSecretKey := MainGin.sampleKey } MainGin.sampleDb
              (some { username := "a", password := "p" }) 5).1 with
     | .ok _ t => t.footer
     | _ => "") = "pitipaw-admin" ∧
    ("pitipaw-admin" : String) ≠ ("footer") := by
  exact ⟨rfl, by decide⟩

/-- C6 (amended): upload rejection is revision-dependent.  `main-pure.go`'s
`uploadHandler` rejects an oversize file, a filename without an extension, and
a disallowed extension with 400 BadRequest, in each case before any write
(only the `createdFile` outcome represents a disk write); `main.go`'s
`uploadFile` rejects only on size (with the state unchanged) and otherwise
persists the file into the products collection whatever its extension. -/
theorem C6_upload_rejection :
    (∀ f : MainPure.UploadForm, MainPure.maxFileSize < f.size →
      MainPure.uploadHandler true (some f) =
        .badRequest ("File terlalu besar. Maksimal 10MB")) ∧
    (∀ f : MainPure.UploadForm, ¬ MainPure.maxFileSize < f.size →
      (goSplit f.filename '.').length < 2 →
      MainPure.uploadHandler true (some f) = .badRequest ("File not allowed")) ∧
    (∀ f : MainPure.UploadForm, ¬ MainPure.maxFileSize < f.size →
      ¬ (goSplit f.filename '.').length < 2 →
      MainPure.allowedExtensions.contains
          (goToLower ((goSplit f.filename '.').getLastD (""))) = false →
      MainPure.uploadHandler true (some f) = .badRequest ("File not allowed")) ∧
    (∀ (st : MainGin.Db) (f : MainGin.UploadedFile) (now : Nat),
      MainGin.maxFileSize < f.size →
      MainGin.uploadFile st (some f) now = (.badRequest ("File too large"), st)) ∧
    (∀ (st : MainGin.Db) (f : MainGin.UploadedFile) (now : Nat),
      ¬ MainGin.maxFileSize < f.size →
      MainGin.uploadFile st (some f) now =
        (.okSaved st.nextId f.filename,
         { st with
           products := st.products ++
             [{ id := st.nextId, name := f.filename, image := f.filename,
                imageData := f.content, createdAt := now, updatedAt := now }],
           nextId := st.nextId + 1 })) := by
  refine ⟨?_, ?_, ?_, ?_, ?_⟩
  · intro f hs
    simp [MainPure.uploadHandler, hs]
  · intro f hs hparts
    simp [MainPure.uploadHandler, hs, hparts]
  · intro f hs hparts hext
    simp [MainPure.uploadHandler, hs, hparts]
    simpa [List.getLastD_eq_getLast?] using hext
  · intro st f now hs
    simp [MainGin.uploadFile, hs]
  · intro st f now hs
    simp [MainGin.uploadFile, hs]

/-- C6 witness: the amended theorem applied to concrete oversize,
extension-less, bad-extension and accepted uploads. -/
theorem C6_upload_rejection_witness :
    MainPure.uploadHandler true (some { filename := "a.png", size := 10485761 }) =
      .badRequest ("File terlalu besar. Maksimal 10MB") ∧
    MainPure.uploadHandler true (some { filename := "noext", size := 1 }) =
      .badRequest ("File not allowed") ∧
    MainPure.uploadHandler true (some { filename := "a.exe", size := 1 }) =
      .badRequest ("File not allowed") ∧
    MainGin.uploadFile { } (some { filename := "b.png", size := 10485761 }) 0 =
      (.badRequest ("File too large"), { }) ∧
    MainGin.uploadFile { } (some { filename := "evil.exe", size := 4, content := [9] }) 3 =
      (.okSaved 1 ("evil.exe"),
       { products := [{ id := 1, name := "evil.exe", image := "evil.exe",
                        imageData := [9], createdAt := 3, updatedAt := 3 }],
         admins := [], nextId := 2 }) :=
  ⟨C6_upload_rejection.1 { filename := "a.png", size := 10485761 } (by decide),
   C6_upload_rejection.2.1 { filename := "noext", size := 1 } (by decide) (by decide),
   C6_upload_rejection.2.2.1 { filename := "a.exe", size := 1 } (by decide) (by decide) (by decide),
   C6_upload_rejection.2.2.2.1 { } { filename := "b.png", size := 10485761 } 0 (by decide),
   C6_upload_rejection.2.2.2.2 { } { filename := "evil.exe", size := 4, content := [9] } 3 (by decide)⟩

/-- C6 counterexample: `main.go`'s uploadFile accepts a 4-byte file named
`evil.exe` — extension outside {png, jpg, jpeg, gif} — answering 200 and
persisting a document, where the claim demands 400 and nothing persisted. -/
theorem C6_counterexample :
    (MainGin.uploadFile { } (some { filename := "evil.exe", size := 4, content := [9] }) 3).1.statusCode = 200 ∧
    ((MainGin.uploadFile { } (some { filename := "evil.exe", size := 4, content := [9] }) 3).2).products.length = 1 := by
  exact ⟨rfl, rfl⟩

/-- C7: every GET request under `/static/` whose path contains the substring
`".."` is answered by the 400 error response `"Invalid file path"`, and no
file is served (only the `serveFile` outcome serves content). -/
theorem C7_static_traversal_rejected :
    ∀ (rest : String) (files : List String),
      containsDotDot rest = true →
      MainPure.staticHandler ("/static/" ++ rest) files =
        .badRequest ("Invalid file path") := by
  intro rest files hdd
  have hne : ¬ (rest = "") := by
    intro h
    subst h
    simp [containsDotDot, hasDotDot] at hdd
  have hpre : (("/static/").data.isPrefixOf (("/static/" ++ rest)).data) = true := by
    rw [String.data_append]
    exact List.isPrefixOf_iff_prefix.mpr (List.prefix_append _ _)
  have hpath : String.mk ((("/static/" ++ rest)).data.drop (("/static/").data.length)) = rest := by
    rw [String.data_append]
    simp
  simp only [MainPure.staticHandler, hpre, if_true]
  rw [hpath]
  simp [hne, hdd]

/-- C7 witness: the theorem applied at the concrete path `"../x"`. -/
theorem C7_static_traversal_rejected_witness :
    MainPure.staticHandler ("/static/" ++ "../x") [] =
      .badRequest ("Invalid file path") :=
  C7_static_traversal_rejected ("../x") [] (by decide)

/-- C8 (amended): the stats projection is revision-dependent.  `main.go`'s
`getStats` (absent database failure) reports the three values: products
count, admins count and the sum over products of price times stock.
`Controller.GetStats` reports the two counts but its third value is always 0:
`cursor.Next` consumes the single aggregate document before `cursor.All`
decodes the remainder.  `main-pure.go`'s `statsHandler` reports only the two
counts plus the constant string `"ok"` — no value sum at all. -/
theorem C8_stats_projection :
    (∀ st : MainGin.Db,
      MainGin.getStats st =
        .ok { totalProducts := st.products.length, totalAdmins := st.admins.length,
              totalValue := (st.products.map (fun p => p.price * p.stock)).sum }) ∧
    (∀ st : Ctrl.Db,
      Ctrl.GetStats st =
        .ok { totalProducts := st.products.length, totalAdmins := st.admins.length,
              totalValue := 0 }) ∧
    (∀ st : MainPure.Db,
      MainPure.statsHandler st =
        [(("total_products"), JVal.num st.products.length),
         (("total_admins"), JVal.num st.admins.length),
         (("status"), JVal.str ("ok"))]) := by
  refine ⟨?_, ?_, fun st => rfl⟩
  · intro st
    cases hp : st.products with
    | nil =>
      simp [MainGin.getStats, MainGin.getStatsCalls, MainGin.aggregateTotal, hp]
    | cons a l =>
      simp [MainGin.getStats, MainGin.getStatsCalls, MainGin.aggregateTotal, hp]
  · intro st
    cases hp : st.products with
    | nil =>
      simp [Ctrl.GetStats, Ctrl.GetStatsCalls, MainGin.aggregateTotal, hp]
    | cons a l =>
      simp [Ctrl.GetStats, Ctrl.GetStatsCalls, MainGin.aggregateTotal, hp]

/-- C8 counterexample: on a state with two products (prices 5 and 7) and one
admin, `main-pure.go`'s stats response carries exactly the two counts and the
constant string `"ok"`: there is no `total_value` entry and only two numeric
entries, so the sum of price times stock is not reported. -/
theorem C8_counterexample :
    MainPure.statsHandler MainPure.sampleStatsDb =
      [(("total_products"), JVal.num 2), (("total_admins"), JVal.num 1),
       (("status"), JVal.str ("ok"))] ∧
    (MainPure.statsHandler MainPure.sampleStatsDb).lookup ("total_value") = none ∧
    ((MainPure.statsHandler MainPure.sampleStatsDb).filter
        (fun kv => match kv.2 with | JVal.num _ => true | _ => false)).length = 2 := by
  exact ⟨rfl, rfl, rfl⟩

/-- C9 (amended): in the modelled handlers each database call is issued once
under the fixed 10-second request context; a failure of a find or aggregate
call is surfaced to the caller as a 500 error response, but the two stats
count queries (`main.go` `getStats` and `Controller.GetStats`) silently
substitute 0 for a failed `CountDocuments` call and still answer 200. -/
theorem C9_db_failure_surfacing :
    (∀ e : String,
      MainPure.getProducts (.error e) =
        .internalError ("Error fetching products: " ++ e)) ∧
    (∀ cp ca : Except Unit Int,
      MainGin.getStatsCalls
          { countProducts := cp, countAdmins := ca, aggregate := .error () } =
        .internalError ("aggregate error")) ∧
    (∀ cp ca : Except Unit Int,
      Ctrl.GetStatsCalls
          { countProducts := cp, countAdmins := ca, aggregate := .error () } =
        .internalError ("aggregate error")) ∧
    (∀ (a : Int) (docs : List Int),
      MainGin.getStatsCalls
          { countProducts := .error (), countAdmins := .ok a, aggregate := .ok docs } =
        .ok { totalProducts := 0, totalAdmins := a, totalValue := docs.headD 0 }) ∧
    (∀ (p : Int) (docs : List Int),
      MainGin.getStatsCalls
          { countProducts := .ok p, countAdmins := .error (), aggregate := .ok docs } =
        .ok { totalProducts := p, totalAdmins := 0, totalValue := docs.headD 0 }) ∧
    (∀ (a : Int) (docs : List Int),
      (MainGin.getStatsCalls
          { countProducts := .error (), countAdmins := .ok a,
            aggregate := .ok docs }).statusCode = 200) := by
  refine ⟨fun e => rfl, fun cp ca => rfl, fun cp ca => rfl, ?_, ?_, ?_⟩
  · intro a docs
    cases docs <;> rfl
  · intro p docs
    cases docs <;> rfl
  · intro a docs
    cases docs <;> rfl

/-- C9 counterexample: when the products count query fails while the other
calls succeed, `main.go`'s getStats answers 200 with `total_products = 0`
instead of surfacing the database failure as an error response. -/
theorem C9_counterexample :
    MainGin.getStatsCalls
        { countProducts := .error (), countAdmins := .ok 3, aggregate := .ok [15] } =
      .ok { totalProducts := 0, totalAdmins := 3, totalValue := 15 } ∧
    (MainGin.getStatsCalls
        { countProducts := .error (), countAdmins := .ok 3, aggregate := .ok [15] }).statusCode = 200 := by
  exact ⟨rfl, rfl⟩

/-- C10: in the revisions that store uploads on disk under the original name
(`main-pure.go` `uploadHandler`, `part_005` `uploadImage`), the destination
path of every accepted upload is exactly the fixed upload directory, a slash,
and the client-supplied filename; beyond the size and extension checks the
filename is not sanitized (a filename containing `".."` with an allowed final
extension is accepted, unlike in the static-file handler); and two accepted
uploads with the same filename target the same path. -/
theorem C10_upload_destination :
    (∀ (parseOk : Bool) (f : MainPure.UploadForm) (dest url : String),
      MainPure.uploadHandler parseOk (some f) = .createdFile dest url →
      dest = MainPure.uploadDir ++ "/" ++ f.filename) ∧
    (∀ (f : Part5.UploadForm) (dest url : String),
      Part5.uploadImage (some f) = .createdFile dest url →
      dest = MainPure.uploadDir ++ "/" ++ f.filename) ∧
    (∀ f : MainPure.UploadForm, f.filename = "../../x.png" →
      ¬ MainPure.maxFileSize < f.size →
      MainPure.uploadHandler true (some f) =
        .createdFile ("static/uploads/../../x.png") ("/static/uploads/../../x.png")) ∧
    (∀ (f g : MainPure.UploadForm) (d₁ u₁ d₂ u₂ : String),
      f.filename = g.filename →
      MainPure.uploadHandler true (some f) = .createdFile d₁ u₁ →
      MainPure.uploadHandler true (some g) = .createdFile d₂ u₂ →
      d₁ = d₂) := by
  have key : ∀ (parseOk : Bool) (f : MainPure.UploadForm) (dest url : String),
      MainPure.uploadHandler parseOk (some f) = .createdFile dest url →
      dest = MainPure.uploadDir ++ "/" ++ f.filename := by
    intro parseOk f dest url h
    simp only [MainPure.uploadHandler] at h
    split_ifs at h <;>
      first
        | exact MainPure.UploadOut.noConfusion h
        | (injection h with h1 h2; exact h1.symm)
  refine ⟨key, ?_, ?_, ?_⟩
  · intro f dest url h
    simp only [Part5.uploadImage] at h
    split_ifs at h <;>
      first
        | exact MainPure.UploadOut.noConfusion h
        | (injection h with h1 h2; exact h1.symm)
  · intro f hf hs
    simp [MainPure.uploadHandler, hs, hf]
    decide
  · intro f g d₁ u₁ d₂ u₂ hfg h₁ h₂
    rw [key true f d₁ u₁ h₁, key true g d₂ u₂ h₂, hfg]

/-- C10 witness: the theorem applied to concrete accepted uploads, including
one whose filename contains `".."`. -/
theorem C10_upload_destination_witness :
    ("static/uploads/a.png" : String) = MainPure.uploadDir ++ "/" ++ "a.png" ∧
    ("static/uploads/b.png" : String) = MainPure.uploadDir ++ "/" ++ "b.png" ∧
    MainPure.uploadHandler true (some { filename := "../../x.png", size := 9 }) =
      .createdFile ("static/uploads/../../x.png") ("/static/uploads/../../x.png") ∧
    ("static/uploads/a.png" : String) = "static/uploads/a.png" :=
  ⟨C10_upload_destination.1 true { filename := "a.png", size := 3 }
     ("static/uploads/a.png") ("/static/uploads/a.png") (by decide),
   C10_upload_destination.2.1 { filename := "b.png", size := 3 }
     ("static/uploads/b.png") ("/static/uploads/b.png") (by decide),
   C10_upload_destination.2.2.1 { filename := "../../x.png", size := 9 } rfl (by decide),
   C10_upload_destination.2.2.2 { filename := "a.png", size := 3 } { filename := "a.png", size := 5 }
     ("static/uploads/a.png") ("/static/uploads/a.png")
     ("static/uploads/a.png") ("/static/uploads/a.png") rfl (by decide) (by decide)⟩

/-- C1 counterexample: the `main.go` createProduct accepts a body with empty
name and zero price — it answers 201 Created and inserts the document, where
the claim demands a 400 response and no insertion. -/
theorem C1_counterexample :
    (MainGin.createProduct { } (some { name := "", price := 0 }) none 7).1.statusCode = 201 ∧
    ((MainGin.createProduct { } (some { name := "", price := 0 }) none 7).2).products.length = 1 := by
  exact ⟨rfl, rfl⟩

end Back
